import Mathlib

set_option linter.unusedVariables false

/-! Verification of the job-lifecycle client of `eden.captions`
(`captions_api.py` and `video_generator.py`), shallowly embedded in Lean.

Modelling conventions:
* Python exceptions become `Except CaptionsAPIError α`.
* A poll response (a JSON object) is a `JobStatus` record of optional fields;
  `dict.get(k, d)` becomes `Option.getD`.
* Time: a poll itself takes no model time; `time.sleep(poll_interval)` advances
  the clock by `poll_interval`, so the elapsed time read by
  `time.time() - start_time` at the top of an iteration is
  `sleeps * poll_interval`.
* The polling loop is given explicit fuel; `none` means the fuel ran out
  (the Python loop would simply keep iterating).
-/

namespace EdenCaptions

/-- Exception type `CaptionsAPIError` from `captions_api.py`: the single exception kind raised
by the client, carrying only a message. -/
inductive CaptionsAPIError where
  | mk (msg : String)
deriving DecidableEq, Repr

/-- The message carried by a `CaptionsAPIError`. -/
def CaptionsAPIError.msg : CaptionsAPIError → String
  | .mk m => m

/-- A poll response from `/api/ads/poll` as consumed by `wait_for_completion`
(lines 170-192 of `captions_api.py`): a JSON object from which the code reads
the optional fields `state`, `url` and `error`. -/
structure JobStatus where
  state : Option String
  url : Option String
  error : Option String
deriving DecidableEq, Repr

/-- The timeout message of line 168: the f-string naming the operation id
and the timeout budget in seconds. -/
def timeoutMsg (operationId : String) (timeout : Nat) : String :=
  "Job " ++ operationId ++ " timed out after " ++ toString timeout ++ " seconds"

/-- The `while True` loop of `wait_for_completion` (`captions_api.py`
lines 164-192).  `pollSeq n` is the response of the n-th poll (0-based);
`polls` and `sleeps` count the polls issued and sleeps performed so far.
Returns the outcome together with the total number of polls issued and sleeps
performed; `none` when the fuel runs out before the loop exits.

Loop body, in source order:
1. if `time.time() - start_time > timeout` (here `sleeps * pollInterval >
   timeout`): raise the timeout error — before any poll is issued;
2. poll: `status = self.get_job_status(operation_id)`,
   `state = status.get("state", "unknown")`;
3. `state == "COMPLETE"`: read `video_url = status.get("url")` and branch on
   `if video_url:` — Python truthiness, so `None` and the empty string both
   count as absent — returning the url when truthy and raising
   "Job completed but no video URL found" otherwise;
4. `state == "FAILED"`: raise `f"Job {operation_id} failed: {error}"` with
   `error = status.get("error", "Unknown error")`;
5. `state in ["PENDING", "PROCESSING", "QUEUED"]`: sleep and loop;
6. otherwise: raise `f"Unknown job state: {state}"`. -/
def waitLoop (pollSeq : Nat → JobStatus) (operationId : String)
    (timeout pollInterval : Nat) :
    Nat → Nat → Nat → Option (Except CaptionsAPIError String × Nat × Nat)
  | 0, _, _ => none
  | fuel + 1, polls, sleeps =>
    if sleeps * pollInterval > timeout then
      some (.error (.mk (timeoutMsg operationId timeout)), polls, sleeps)
    else
      let status := pollSeq polls
      let state := status.state.getD "unknown"
      if state = "COMPLETE" then
        match status.url with
        | some videoUrl =>
          -- `if video_url:` — an empty string is falsy in Python, so a
          -- present-but-empty url takes the no-URL error path
          if videoUrl = "" then
            some (.error (.mk "Job completed but no video URL found"),
                  polls + 1, sleeps)
          else
            some (.ok videoUrl, polls + 1, sleeps)
        | none =>
          some (.error (.mk "Job completed but no video URL found"),
                polls + 1, sleeps)
      else if state = "FAILED" then
        let errDetail := status.error.getD "Unknown error"
        some (.error (.mk ("Job " ++ operationId ++ " failed: " ++ errDetail)),
              polls + 1, sleeps)
      else if state = "PENDING" ∨ state = "PROCESSING" ∨ state = "QUEUED" then
        waitLoop pollSeq operationId timeout pollInterval fuel
          (polls + 1) (sleeps + 1)
      else
        some (.error (.mk ("Unknown job state: " ++ state)), polls + 1, sleeps)

/-- Default `timeout` of `wait_for_completion` (300 seconds). -/
def DEFAULT_TIMEOUT : Nat := 300

/-- Default `poll_interval` of `wait_for_completion` (10 seconds). -/
def DEFAULT_POLL_INTERVAL : Nat := 10

/-- Function `wait_for_completion(operation_id, timeout, poll_interval)`: record the
start time (zero polls, zero sleeps) and enter the loop. -/
def wait_for_completion (pollSeq : Nat → JobStatus) (operationId : String)
    (timeout pollInterval fuel : Nat) :
    Option (Except CaptionsAPIError String × Nat × Nat) :=
  waitLoop pollSeq operationId timeout pollInterval fuel 0 0

/-- A poll response with the given state and no other fields. -/
def stateOnly (s : String) : JobStatus := ⟨some s, none, none⟩

/-- The three-element poll sequence of the spec example: PENDING, PROCESSING,
then COMPLETE with url `https://x/video.mp4`; constant afterwards. -/
def c2Seq : Nat → JobStatus := fun n =>
  if n = 0 then stateOnly "PENDING"
  else if n = 1 then stateOnly "PROCESSING"
  else ⟨some "COMPLETE", some "https://x/video.mp4", none⟩

/-- A poll sequence that never reaches a terminal state: every poll answers
PENDING. -/
def pendingSeq : Nat → JobStatus := fun _ => stateOnly "PENDING"

/-- A poll sequence answering COMPLETE with a result URL at once. -/
def completeSeq : Nat → JobStatus :=
  fun _ => ⟨some "COMPLETE", some "https://x/video.mp4", none⟩

/-- A poll sequence answering the unrecognized state WEIRD_STATE. -/
def weirdSeq : Nat → JobStatus := fun _ => stateOnly "WEIRD_STATE"

/-- A poll sequence whose responses carry no `state` field at all. -/
def noStateSeq : Nat → JobStatus := fun _ => ⟨none, none, none⟩

/-! Python string primitives:

`str.strip()`, `str.lower()` and `str.isalnum()` are modelled character-wise,
exactly on the code points the claims exercise (ASCII for `strip`/`lower`,
the Basic Latin and Latin-1 Supplement blocks for `isalnum`). -/

/-- The ASCII whitespace characters removed by Python `str.strip()` with no
argument: space, tab, newline, carriage return, vertical tab, form feed. -/
def pyIsSpace (c : Char) : Bool :=
  c == ' ' || c == '\t' || c == '\n' || c == '\r' ||
  c == '\x0b' || c == '\x0c'

/-- Python `str.strip()`: remove leading and trailing whitespace. -/
def pyStrip (s : String) : String :=
  String.mk (((s.data.dropWhile pyIsSpace).reverse.dropWhile pyIsSpace).reverse)

/-- Python `str.lower()`, character-wise (exact on ASCII). -/
def pyLower (s : String) : String :=
  String.mk (s.data.map Char.toLower)

/-- Python `str.isalnum()` for a single character, exact on code points up to
U+00FF.  Beyond ASCII, the Latin-1 Supplement alphanumerics are the ordinal
indicators U+00AA and U+00BA, the micro sign U+00B5, the superscript digits
U+00B2, U+00B3, U+00B9, the vulgar fractions U+00BC, U+00BD, U+00BE, and the
letters U+00C0 to U+00FF except the multiplication sign U+00D7 and the
division sign U+00F7.  Code points above U+00FF are not modelled (the inputs
considered here stay within Latin-1). -/
def pyIsAlnum (c : Char) : Bool :=
  c.isAlphanum ||
  (0xC0 ≤ c.toNat && c.toNat ≤ 0xFF && c.toNat != 0xD7 && c.toNat != 0xF7) ||
  c.toNat == 0xAA || c.toNat == 0xB5 || c.toNat == 0xBA ||
  c.toNat == 0xB2 || c.toNat == 0xB3 || c.toNat == 0xB9 ||
  c.toNat == 0xBC || c.toNat == 0xBD || c.toNat == 0xBE

/-! Validation: `_validate_inputs` (`video_generator.py` lines 87-100). -/

/-- The `valid_resolutions` list of line 98. -/
def validResolutions : List String := ["fhd", "hd", "4k"]

/-- Function `_validate_inputs(script, creator_name, resolution)`, lines 87-100.
In source order: `if not script or len(script.strip()) < 10` (for a `str`,
`not script` is truth-value falsity, i.e. emptiness); `if not creator_name or
len(creator_name.strip()) < 1`; `if resolution.lower() not in
valid_resolutions`. -/
def validate_inputs (script creatorName resolution : String) :
    Except CaptionsAPIError Unit :=
  if script = "" ∨ (pyStrip script).length < 10 then
    .error (.mk "Script must be at least 10 characters long")
  else if creatorName = "" ∨ (pyStrip creatorName).length < 1 then
    .error (.mk "Creator name is required")
  else if pyLower resolution ∉ validResolutions then
    .error (.mk ("Invalid resolution. Must be one of: " ++
      String.intercalate ", " validResolutions))
  else
    .ok ()

/-! Transport: `_make_request` (`captions_api.py` lines 48-85). -/

/-- The outcome of one HTTP exchange as observed by `_make_request`:
a 2xx response with body `body` (`raise_for_status` passed), an HTTP error
status (`raise_for_status` raised `requests.exceptions.HTTPError`), or a
transport-level failure (any other `requests.exceptions.RequestException`:
DNS, connection, timeout).  For an HTTP error, `parsedBody` is `some d` with
`d` the Python `str()` of `e.response.json()` when the response text parses
as JSON and `none` when it does not, `text` is `e.response.text`, and
`detail` is `str(e)`. -/
inductive HttpOutcome (α : Type) where
  | success (body : α)
  | httpError (statusCode : Nat) (parsedBody : Option String)
      (text : String) (detail : String)
  | transportFailure (detail : String)

/-- The `except requests.exceptions.HTTPError` branch of `_make_request`
(lines 69-83).  For status 400 the code is

    try:
        error_detail = e.response.json()
        raise CaptionsAPIError(f"Bad request: \x7berror_detail\x7d")
    except:
        raise CaptionsAPIError(f"Bad request: \x7be.response.text\x7d")

The body of the inner `try` always raises an exception: the `CaptionsAPIError`
carrying the parsed detail when `e.response.json()` parses, or the JSON
decoding error when it does not.  The bare `except:` catches either, and its
handler raises the raw-text error — so the parsed detail is never the one
propagated. -/
def make_request_error (statusCode : Nat) (parsedBody : Option String)
    (text detail : String) : CaptionsAPIError :=
  if statusCode = 401 then
    .mk "Invalid API key. Please check your credentials."
  else if statusCode = 429 then
    .mk "Rate limit exceeded. Please wait before making another request."
  else if statusCode = 402 then
    .mk "Insufficient credits. Please purchase more credits."
  else if statusCode = 400 then
    match parsedBody with
    | some d =>
      -- the try body raises `CaptionsAPIError ("Bad request: " ++ d)`;
      -- the bare except catches it and raises the raw-text error instead
      .mk ("Bad request: " ++ text)
    | none =>
      -- `e.response.json()` raises; the bare except catches it
      .mk ("Bad request: " ++ text)
  else
    .mk ("API request failed: " ++ detail)

/-- Function `_make_request`: return the parsed body of a 2xx response, map an
`HTTPError` through `make_request_error`, and map any other
`RequestException` to the generic failure message (line 85). -/
def make_request {α : Type} : HttpOutcome α → Except CaptionsAPIError α
  | .success body => .ok body
  | .httpError statusCode parsedBody text detail =>
    .error (make_request_error statusCode parsedBody text detail)
  | .transportFailure detail =>
    .error (.mk ("API request failed: " ++ detail))

/-! Filenames: `_generate_filename` (`video_generator.py` lines 107-118). -/

/-- Function `_generate_filename(script, creator_name, resolution)`, lines 107-118.
`timestamp` stands for `datetime.now().strftime("%Y%m%d_%H%M%S")`, the one
ambient input; `script` is accepted but never used by the source.  The raw
name `f"ai_ad_\x7bcreator_name\x7d_\x7bresolution\x7d_\x7btimestamp\x7d.mp4"`
is filtered by `c.isalnum() or c in "._-"` (offending characters are dropped,
not escaped). -/
def generate_filename (script creatorName resolution timestamp : String) :
    String :=
  let filename := "ai_ad_" ++ creatorName ++ "_" ++ resolution ++ "_" ++
    timestamp ++ ".mp4"
  String.mk (filename.data.filter
    (fun c => pyIsAlnum c || c == '.' || c == '_' || c == '-'))

/-! Submission: `create_ai_ad` (`captions_api.py` lines 87-128). -/

/-- The fallback media URL of line 104, used when the caller supplies no
media URLs. -/
def PLACEHOLDER_MEDIA_URL : String :=
  "https://images.unsplash.com/photo-1611224923853-80b023f02d71?w=800&h=600&fit=crop"

/-- The JSON payload POSTed to `/api/ads/submit` (lines 106-117).  All four
mandatory fields are always present and non-`None`, and `webhookId` is added
only when supplied, so the `None`-stripping of line 117 never removes a
mandatory field. -/
structure AdPayload where
  script : String
  creatorName : String
  mediaUrls : List String
  resolution : String
  webhookId : Option String
deriving DecidableEq, Repr

/-- Payload construction in `create_ai_ad` (lines 102-117): `if not
media_urls` — `media_urls` is `None` or the empty list — substitute the
single placeholder URL. -/
def buildAdPayload (script creatorName : String)
    (mediaUrls : Option (List String)) (resolution : String)
    (webhookId : Option String) : AdPayload :=
  let urls := match mediaUrls with
    | none => [PLACEHOLDER_MEDIA_URL]
    | some [] => [PLACEHOLDER_MEDIA_URL]
    | some us => us
  ⟨script, creatorName, urls, resolution, webhookId⟩

/-- Function `create_ai_ad` (lines 87-128): build the payload, POST it, and read
`operationId` from the response.  `submit` gives the upstream outcome for a
payload: an error when `_make_request` raises, otherwise the response with
`response.get("operationId")` as an optional field.  Line 124 checks
`if not operation_id:` — Python truthiness, so a missing id and an empty
string id both raise the protocol error of line 125. -/
def create_ai_ad
    (submit : AdPayload → Except CaptionsAPIError (Option String))
    (script creatorName : String) (mediaUrls : Option (List String))
    (resolution : String) (webhookId : Option String) :
    Except CaptionsAPIError String :=
  let payload := buildAdPayload script creatorName mediaUrls resolution
    webhookId
  match submit payload with
  | .error e => .error e
  | .ok none => .error (.mk "No operation ID received from API")
  | .ok (some operationId) =>
    -- `if not operation_id:` — the empty string is falsy
    if operationId = "" then .error (.mk "No operation ID received from API")
    else .ok operationId

/-! Workflow: `generate_ad_video` (`video_generator.py` lines 31-85). -/

/-- Outcome of the streaming GET issued by `download_video` for a url:
success; a failure of the initial request or of `raise_for_status`
(lines 207-208), which happens before the output file is opened; or a
`RequestException` raised mid-stream by `iter_content` (line 214), after the
output file has been opened at line 213 and possibly partially written. -/
inductive DownloadOutcome where
  | success
  | failBeforeOpen (detail : String)
  | failMidStream (detail : String)

/-- The upstream behaviour `generate_ad_video` runs against: the submit
outcome per payload, the poll sequence, and the download outcome per URL. -/
structure ApiEnv where
  submit : AdPayload → Except CaptionsAPIError (Option String)
  pollSeq : Nat → JobStatus
  download : String → DownloadOutcome

/-- Function `download_video(video_url, output_path)` (`captions_api.py` lines
194-221): on success the body is streamed to `output_path`, which is
returned.  A `RequestException` is re-raised as the error of line 221; when
it comes from the GET or the status check, the output file was never opened
and nothing is written, but when it is raised mid-stream the file opened at
line 213 remains as a partial artifact.  The second component lists the
files (including partial artifacts) written. -/
def download_video (env : ApiEnv) (videoUrl outputPath : String) :
    Except CaptionsAPIError String × List String :=
  match env.download videoUrl with
  | .success => (.ok outputPath, [outputPath])
  | .failBeforeOpen detail =>
    (.error (.mk ("Failed to download video: " ++ detail)), [])
  | .failMidStream detail =>
    (.error (.mk ("Failed to download video: " ++ detail)), [outputPath])

/-- Function `generate_ad_video` (lines 31-85): validate, resolve the filename
(`if not filename` — `None` or empty — derive one), submit, wait with the
default timeout and poll interval, then download to
`os.path.join(output_dir, filename)`.  The second component lists the files
written to the output directory (the `os.makedirs` of line 62 creates a
directory, never a file).  `none` when the polling fuel runs out. -/
def generate_ad_video (env : ApiEnv) (script creatorName : String)
    (mediaUrls : Option (List String)) (resolution : String)
    (webhookId : Option String) (outputDir : String)
    (filename : Option String) (timestamp : String) (fuel : Nat) :
    Option (Except CaptionsAPIError String × List String) :=
  match validate_inputs script creatorName resolution with
  | .error e => some (.error e, [])
  | .ok _ =>
    let fname := match filename with
      | none => generate_filename script creatorName resolution timestamp
      | some f =>
        if f = "" then generate_filename script creatorName resolution
          timestamp
        else f
    let outputPath := outputDir ++ "/" ++ fname
    match create_ai_ad env.submit script creatorName mediaUrls resolution
      webhookId with
    | .error e => some (.error e, [])
    | .ok operationId =>
      match wait_for_completion env.pollSeq operationId DEFAULT_TIMEOUT
        DEFAULT_POLL_INTERVAL fuel with
      | none => none
      | some (.error e, _, _) => some (.error e, [])
      | some (.ok videoUrl, _, _) =>
        some (download_video env videoUrl outputPath)

/-- Environment of the end-to-end failure scenario: submission always
returns operation id op123, every poll answers FAILED with detail
bad media, and downloads would succeed if attempted. -/
def failedJobEnv : ApiEnv :=
  ⟨fun _ => .ok (some "op123"),
   fun _ => ⟨some "FAILED", none, some "bad media"⟩,
   fun _ => .success⟩

/-! Theorems. -/

/-- A string of length less than one is the empty string. -/
theorem string_length_lt_one_iff (s : String) : s.length < 1 ↔ s = "" := by
  constructor
  · intro h
    cases s with
    | mk data =>
      have h2 : data.length < 1 := h
      have hz : data = [] := List.length_eq_zero.mp (by omega)
      rw [hz]
  · intro h
    rw [h]
    decide

/-- One non-terminal iteration of the polling loop: when the budget is not
yet exhausted and the state is PENDING, PROCESSING or QUEUED, the loop
issues the poll, sleeps once and continues. -/
theorem waitLoop_retry (pollSeq : Nat → JobStatus) (operationId : String)
    (timeout pollInterval fuel polls sleeps : Nat)
    (hTime : ¬ sleeps * pollInterval > timeout)
    (hState : (pollSeq polls).state.getD "unknown" = "PENDING" ∨
              (pollSeq polls).state.getD "unknown" = "PROCESSING" ∨
              (pollSeq polls).state.getD "unknown" = "QUEUED") :
    waitLoop pollSeq operationId timeout pollInterval (fuel + 1) polls sleeps
      = waitLoop pollSeq operationId timeout pollInterval fuel (polls + 1)
          (sleeps + 1) := by
  rcases hState with h | h | h <;> simp [waitLoop, hTime, h]

/-- C2. For the poll sequence [PENDING, PROCESSING, COMPLETE with url
https://x/video.mp4] under the default timeout and poll interval,
`wait_for_completion` returns the url after exactly three polls and exactly
two sleeps — one after each non-terminal status, none after the terminal
one. -/
theorem wait_two_sleeps_then_url :
    wait_for_completion c2Seq "op123" DEFAULT_TIMEOUT DEFAULT_POLL_INTERVAL 50
      = some (.ok "https://x/video.mp4", 3, 2) := by rfl

/-- C3. A poll response with state COMPLETE is terminal: when the budget
is not exhausted, the loop returns the result URL when one is present —
present in the sense of the `if video_url:` check of line 177, i.e. the
field exists and is non-empty — and fails with the protocol error of
line 181 when it is absent (missing field, or present but empty, both falsy
in Python) — in both cases exactly one further poll (this one) is issued,
so a COMPLETE response is never retried. -/
theorem wait_complete_terminal (pollSeq : Nat → JobStatus)
    (operationId : String) (timeout pollInterval fuel polls sleeps : Nat)
    (hTime : ¬ sleeps * pollInterval > timeout)
    (hState : (pollSeq polls).state = some "COMPLETE") :
    (∀ videoUrl, (pollSeq polls).url = some videoUrl → videoUrl ≠ "" →
      waitLoop pollSeq operationId timeout pollInterval (fuel + 1) polls
          sleeps
        = some (.ok videoUrl, polls + 1, sleeps)) ∧
    ((pollSeq polls).url = none ∨ (pollSeq polls).url = some "" →
      waitLoop pollSeq operationId timeout pollInterval (fuel + 1) polls
          sleeps
        = some (.error (.mk "Job completed but no video URL found"),
            polls + 1, sleeps)) := by
  constructor
  · intro videoUrl hUrl hne
    simp [waitLoop, hTime, hState, hUrl, hne]
  · rintro (hUrl | hUrl) <;> simp [waitLoop, hTime, hState, hUrl]

/-- Closed instance of `wait_complete_terminal`: a first poll answering
COMPLETE with a url ends the wait at once with that url. -/
theorem wait_complete_terminal_witness :
    wait_for_completion completeSeq "op123" DEFAULT_TIMEOUT
        DEFAULT_POLL_INTERVAL 1
      = some (.ok "https://x/video.mp4", 1, 0) :=
  (wait_complete_terminal completeSeq "op123" DEFAULT_TIMEOUT
    DEFAULT_POLL_INTERVAL 0 0 0 (by decide) rfl).1 "https://x/video.mp4" rfl
    (by decide)

/-- C4. A poll response whose state is outside
{PENDING, PROCESSING, QUEUED, COMPLETE, FAILED} is terminal: the loop fails
with the error of line 192 naming the literal state value, and issues no
further poll. -/
theorem wait_unrecognized_state_terminal (pollSeq : Nat → JobStatus)
    (operationId : String) (timeout pollInterval fuel polls sleeps : Nat)
    (hTime : ¬ sleeps * pollInterval > timeout)
    (hState : (pollSeq polls).state.getD "unknown" ∉
      (["PENDING", "PROCESSING", "QUEUED", "COMPLETE", "FAILED"] :
        List String)) :
    waitLoop pollSeq operationId timeout pollInterval (fuel + 1) polls sleeps
      = some (.error (.mk ("Unknown job state: "
            ++ (pollSeq polls).state.getD "unknown")), polls + 1, sleeps) := by
  simp only [List.mem_cons, List.not_mem_nil, or_false, not_or] at hState
  obtain ⟨h1, h2, h3, h4, h5⟩ := hState
  simp [waitLoop, hTime, h1, h2, h3, h4, h5]

/-- Closed instance of `wait_unrecognized_state_terminal`: a first poll
answering WEIRD_STATE raises the error naming WEIRD_STATE after exactly one
poll. -/
theorem wait_unrecognized_state_terminal_witness :
    wait_for_completion weirdSeq "op123" DEFAULT_TIMEOUT DEFAULT_POLL_INTERVAL
        1
      = some (.error (.mk "Unknown job state: WEIRD_STATE"), 1, 0) :=
  wait_unrecognized_state_terminal weirdSeq "op123" DEFAULT_TIMEOUT
    DEFAULT_POLL_INTERVAL 0 0 0 (by decide) (by decide)

/-- C10. A poll response with no state field at all gets the substitute
state string `unknown` (`status.get("state", "unknown")`, line 171) and is
terminal: the loop fails with `Unknown job state: unknown` rather than
retrying, issuing no further poll. -/
theorem wait_missing_state_terminal (pollSeq : Nat → JobStatus)
    (operationId : String) (timeout pollInterval fuel polls sleeps : Nat)
    (hTime : ¬ sleeps * pollInterval > timeout)
    (hState : (pollSeq polls).state = none) :
    waitLoop pollSeq operationId timeout pollInterval (fuel + 1) polls sleeps
      = some (.error (.mk "Unknown job state: unknown"), polls + 1,
          sleeps) := by
  simp [waitLoop, hTime, hState]

/-- Closed instance of `wait_missing_state_terminal`: a first poll response
without a state field raises `Unknown job state: unknown` after exactly one
poll. -/
theorem wait_missing_state_terminal_witness :
    wait_for_completion noStateSeq "op123" DEFAULT_TIMEOUT
        DEFAULT_POLL_INTERVAL 1
      = some (.error (.mk "Unknown job state: unknown"), 1, 0) :=
  wait_missing_state_terminal noStateSeq "op123" DEFAULT_TIMEOUT
    DEFAULT_POLL_INTERVAL 0 0 0 (by decide) rfl

/-- C1. The elapsed-budget check runs before each poll: on every
iteration whose elapsed time strictly exceeds the timeout, the loop raises
the timeout error naming the operation id and the timeout budget without
issuing a further poll; in particular, against a poll sequence that never
reaches a terminal state, with timeout 1 and poll interval 10, exactly one
poll is issued (and one sleep performed) before the timeout error. -/
theorem wait_timeout_before_poll (pollSeq : Nat → JobStatus)
    (operationId : String)
    (hNT : ∀ n, (pollSeq n).state.getD "unknown" = "PENDING" ∨
                (pollSeq n).state.getD "unknown" = "PROCESSING" ∨
                (pollSeq n).state.getD "unknown" = "QUEUED") :
    (∀ timeout pollInterval fuel polls sleeps,
        sleeps * pollInterval > timeout →
        waitLoop pollSeq operationId timeout pollInterval (fuel + 1) polls
            sleeps
          = some (.error (.mk (timeoutMsg operationId timeout)), polls,
              sleeps)) ∧
    (∀ fuel,
        wait_for_completion pollSeq operationId 1 10 (fuel + 2)
          = some (.error (.mk (timeoutMsg operationId 1)), 1, 1)) := by
  constructor
  · intro timeout pollInterval fuel polls sleeps h
    simp [waitLoop, h]
  · intro fuel
    show waitLoop pollSeq operationId 1 10 (fuel + 1 + 1) 0 0 = _
    rw [waitLoop_retry pollSeq operationId 1 10 (fuel + 1) 0 0 (by decide)
      (hNT 0)]
    simp [waitLoop]

/-- Closed instance of `wait_timeout_before_poll`: with timeout 1 and poll
interval 10 against an always-PENDING sequence, the wait raises the timeout
error naming the operation id and the budget after exactly one poll and one
sleep. -/
theorem wait_timeout_before_poll_witness :
    wait_for_completion pendingSeq "op123" 1 10 2
      = some (.error (.mk "Job op123 timed out after 1 seconds"), 1, 1) :=
  (wait_timeout_before_poll pendingSeq "op123" (fun _ => Or.inl rfl)).2 0

/-- C5. `_validate_inputs` succeeds exactly when the trimmed script has
at least 10 characters, the creator name is non-empty after trimming, and
the lowercased resolution is one of fhd, hd, 4k — independent of script
content; in the embedding it is a pure function, with no effect besides the
returned outcome. -/
theorem validate_inputs_ok_iff (script creatorName resolution : String) :
    validate_inputs script creatorName resolution = .ok () ↔
      (10 ≤ (pyStrip script).length ∧ pyStrip creatorName ≠ "" ∧
        pyLower resolution ∈ validResolutions) := by
  unfold validate_inputs
  split_ifs with h1 h2 h3
  · refine iff_of_false id ?_
    rintro ⟨hlen, -, -⟩
    rcases h1 with h | h
    · rw [h] at hlen
      revert hlen
      decide
    · omega
  · refine iff_of_false id ?_
    rintro ⟨-, hne, -⟩
    rcases h2 with h | h
    · exact hne (by subst h; decide)
    · exact hne ((string_length_lt_one_iff _).mp h)
  · refine iff_of_true rfl ⟨?_, ?_, h3⟩
    · by_contra hlt
      exact h1 (Or.inr (by omega))
    · intro heq
      exact h2 (Or.inr ((string_length_lt_one_iff _).mpr heq))
  · refine iff_of_false id ?_
    rintro ⟨-, -, hmem⟩
    exact h3 hmem

/-- Closed instance of `validate_inputs_ok_iff`: a ten-plus-character
script, a non-empty creator name and the mixed-case resolution 4K pass
validation. -/
theorem validate_inputs_ok_iff_witness :
    validate_inputs "this is a valid script" "Kate" "4K" = .ok () :=
  (validate_inputs_ok_iff "this is a valid script" "Kate" "4K").mpr
    (by decide)

/-- C6. Evaluation of the error mapping of `_make_request` at the
failing input: an HTTP 400 whose response text `[1,2]` parses as JSON
(Python renders the parsed body as `[1, 2]`).  The raised error carries the
raw response text, not the parsed error body: the `CaptionsAPIError` built
from the parsed detail inside the inner `try` is caught by the bare
`except:` and replaced.  The other mappings — 401, 429, 402, other non-2xx —
behave as specified. -/
theorem make_request_400_drops_parsed_body :
    make_request_error 400 (some "[1, 2]") "[1,2]" "400 Client Error"
        = .mk "Bad request: [1,2]" ∧
    make_request_error 400 (some "[1, 2]") "[1,2]" "400 Client Error"
        ≠ .mk "Bad request: [1, 2]" ∧
    make_request_error 400 none "not json" "400 Client Error"
        = .mk "Bad request: not json" ∧
    make_request_error 401 none "" "401 Client Error"
        = .mk "Invalid API key. Please check your credentials." ∧
    make_request_error 429 none "" "429 Client Error"
        = .mk "Rate limit exceeded. Please wait before making another request." ∧
    make_request_error 402 none "" "402 Client Error"
        = .mk "Insufficient credits. Please purchase more credits." ∧
    make_request_error 500 none "" "500 Server Error"
        = .mk "API request failed: 500 Server Error" := by
  decide

/-- Counterexample to C7 as stated: a creator name containing the
Latin-1 letter é — alphanumeric for Python `str.isalnum`, hence kept by the
filter — yields a filename containing é, a character outside
[A-Za-z0-9._-]. -/
theorem generate_filename_not_ascii :
    'é' ∈ (generate_filename "some script" "Jané" "fhd"
        "20240101_000000").data ∧
    ¬ (('A' ≤ 'é' ∧ 'é' ≤ 'Z') ∨ ('a' ≤ 'é' ∧ 'é' ≤ 'z') ∨
       ('0' ≤ 'é' ∧ 'é' ≤ '9') ∨ 'é' = '.' ∨ 'é' = '_' ∨ 'é' = '-') := by
  decide

/-- C7 (amended). The filename derived when the caller supplies none is
a deterministic function of creator name, resolution and timestamp only
(the script argument is ignored); it ends in ".mp4"; and every one of its
characters is accepted by Python `str.isalnum` or is one of `.`, `_`, `-`
(every other character stripped, not escaped).  The retained character set
is the Unicode alphanumerics, not [A-Za-z0-9._-]: non-ASCII alphanumerics
such as é pass the filter unchanged. -/
theorem generate_filename_spec (script script2 creatorName resolution
      timestamp : String) (c : Char)
    (hc : c ∈ (generate_filename script creatorName resolution
      timestamp).data) :
    (pyIsAlnum c || c == '.' || c == '_' || c == '-') = true ∧
    (∃ l, (generate_filename script creatorName resolution timestamp).data
        = l ++ ('.' :: 'm' :: 'p' :: '4' :: [])) ∧
    generate_filename script creatorName resolution timestamp
      = generate_filename script2 creatorName resolution timestamp := by
  have hc2 : c ∈ List.filter
      (fun c => pyIsAlnum c || c == '.' || c == '_' || c == '-')
      (("ai_ad_" ++ creatorName ++ "_" ++ resolution ++ "_" ++ timestamp
        ++ ".mp4").data) := hc
  have hp := List.of_mem_filter hc2
  refine ⟨hp, ?_, rfl⟩
  refine ⟨(("ai_ad_" ++ creatorName ++ "_" ++ resolution ++ "_" ++
      timestamp).data).filter
      (fun c => pyIsAlnum c || c == '.' || c == '_' || c == '-'), ?_⟩
  show (("ai_ad_" ++ creatorName ++ "_" ++ resolution ++ "_" ++ timestamp
      ++ ".mp4").data).filter
      (fun c => pyIsAlnum c || c == '.' || c == '_' || c == '-') = _
  rw [String.data_append, List.filter_append]
  rfl

/-- Closed instance of `generate_filename_spec` at the creator Janés Ad!,
resolution fhd, a fixed timestamp, and the character a of the output. -/
theorem generate_filename_spec_witness :
    (pyIsAlnum 'a' || 'a' == '.' || 'a' == '_' || 'a' == '-') = true ∧
    (∃ l, (generate_filename "script one" "Janés Ad!" "fhd"
        "20240101_000000").data = l ++ ('.' :: 'm' :: 'p' :: '4' :: [])) ∧
    generate_filename "script one" "Janés Ad!" "fhd" "20240101_000000"
      = generate_filename "script two" "Janés Ad!" "fhd" "20240101_000000" :=
  generate_filename_spec "script one" "script two" "Janés Ad!" "fhd"
    "20240101_000000" 'a' (by decide)

/-- Counterexample to C8 as stated: the resolution FHD passes validation
— the check lowercases before comparing — but the submitted payload carries
the raw string FHD, which is not in the enumerated set. -/
theorem payload_resolution_not_enumerated :
    validate_inputs "a sufficiently long script" "Jane" "FHD" = .ok () ∧
    (buildAdPayload "a sufficiently long script" "Jane" none "FHD"
        none).resolution ∉ validResolutions := by
  exact ⟨rfl, by decide⟩

/-- C8 (amended). Every job request that passes input validation yields
a submitted payload whose media-URL list is non-empty (a single placeholder
URL substituted when the caller supplies none or an empty list) and whose
resolution lowercases into the enumerated set — the payload carries the
resolution exactly as the caller cased it, so membership in {fhd, hd, 4k}
holds only up to case. -/
theorem payload_invariants (script creatorName resolution : String)
    (mediaUrls : Option (List String)) (webhookId : Option String)
    (h : validate_inputs script creatorName resolution = .ok ()) :
    pyLower ((buildAdPayload script creatorName mediaUrls resolution
        webhookId).resolution) ∈ validResolutions ∧
    (buildAdPayload script creatorName mediaUrls resolution
        webhookId).mediaUrls ≠ [] := by
  constructor
  · have hres : pyLower resolution ∈ validResolutions := by
      unfold validate_inputs at h
      split_ifs at h with h1 h2 h3
      exact h3
    exact hres
  · cases mediaUrls with
    | none => simp [buildAdPayload]
    | some us =>
      cases us with
      | nil => simp [buildAdPayload]
      | cons u us => simp [buildAdPayload]

/-- Closed instance of `payload_invariants`: with no media URLs supplied and
resolution hd, the payload carries the placeholder URL and an in-set
resolution. -/
theorem payload_invariants_witness :
    pyLower ((buildAdPayload "a script long enough" "Kate" (some []) "hd"
        none).resolution) ∈ validResolutions ∧
    (buildAdPayload "a script long enough" "Kate" (some []) "hd"
        none).mediaUrls ≠ [] :=
  payload_invariants "a script long enough" "Kate" "hd" (some []) none rfl

/-- C9. If submission succeeds with some handle — a non-empty operation id,
since line 124 rejects an empty one — and the first poll returns FAILED with
error detail bad media, `generate_ad_video` fails with the job-failure error
carrying bad media and writes no file to the output directory; and in full
generality, whenever submission fails, or submission succeeds and
wait-for-completion ends in an error, `generate_ad_video` propagates exactly
that error with an empty list of written files: the download step — the only
step that writes files — never runs on a failure of submit or
wait-for-completion. -/
theorem generate_ad_video_failed_job (env : ApiEnv)
    (script creatorName : String) (mediaUrls : Option (List String))
    (resolution : String) (webhookId : Option String) (outputDir : String)
    (filename : Option String) (timestamp : String) (fuel : Nat)
    (operationId : String)
    (hvalid : validate_inputs script creatorName resolution = .ok ())
    (hop : operationId ≠ "")
    (hsubmit : env.submit (buildAdPayload script creatorName mediaUrls
      resolution webhookId) = .ok (some operationId))
    (hpoll : env.pollSeq 0 = ⟨some "FAILED", none, some "bad media"⟩) :
    generate_ad_video env script creatorName mediaUrls resolution webhookId
        outputDir filename timestamp (fuel + 1)
      = some (.error (.mk ("Job " ++ operationId ++ " failed: "
          ++ "bad media")), []) ∧
    (∀ (env2 : ApiEnv) (script2 creatorName2 : String)
        (mediaUrls2 : Option (List String)) (resolution2 : String)
        (webhookId2 : Option String) (outputDir2 : String)
        (filename2 : Option String) (timestamp2 : String) (fuel2 : Nat)
        (e : CaptionsAPIError),
      validate_inputs script2 creatorName2 resolution2 = .ok () →
      (create_ai_ad env2.submit script2 creatorName2 mediaUrls2 resolution2
          webhookId2 = .error e →
        generate_ad_video env2 script2 creatorName2 mediaUrls2 resolution2
            webhookId2 outputDir2 filename2 timestamp2 fuel2
          = some (.error e, [])) ∧
      (∀ (operationId2 : String) (polls2 sleeps2 : Nat),
        create_ai_ad env2.submit script2 creatorName2 mediaUrls2 resolution2
            webhookId2 = .ok operationId2 →
        wait_for_completion env2.pollSeq operationId2 DEFAULT_TIMEOUT
            DEFAULT_POLL_INTERVAL fuel2 = some (.error e, polls2, sleeps2) →
        generate_ad_video env2 script2 creatorName2 mediaUrls2 resolution2
            webhookId2 outputDir2 filename2 timestamp2 fuel2
          = some (.error e, []))) := by
  constructor
  · simp only [generate_ad_video, create_ai_ad, hvalid, hsubmit, hop,
      wait_for_completion]
    simp [waitLoop, hpoll, hop]
  · intro env2 script2 creatorName2 mediaUrls2 resolution2 webhookId2
      outputDir2 filename2 timestamp2 fuel2 e hv
    constructor
    · intro hcreate
      simp only [generate_ad_video, hv, hcreate]
    · intro operationId2 polls2 sleeps2 hcreate hwait
      simp only [generate_ad_video, hv, hcreate, hwait]

/-- Closed instance of `generate_ad_video_failed_job`: in the environment
where submission yields op123 and the first poll answers FAILED with detail
bad media, the run fails with the error naming bad media and the list of
files written is empty. -/
theorem generate_ad_video_failed_job_witness :
    generate_ad_video failedJobEnv "a sufficiently long script" "Jane" none
        "fhd" none "./generated_videos" none "20240101_000000" 1
      = some (.error (.mk "Job op123 failed: bad media"), []) :=
  (generate_ad_video_failed_job failedJobEnv "a sufficiently long script"
    "Jane" none "fhd" none "./generated_videos" none "20240101_000000" 0
    "op123" rfl (by decide) rfl rfl).1

end EdenCaptions
